import Mathlib

/-!
# Verification of the farm-market data-collection and forecasting pipeline

A shallow embedding in Lean 4 of the core of the `farm-market-platform`
repository: the forecasting strategies of `forecast.py`, the recommendation
advisor, the price-upsert logic of `data_scheduler.py`, the scheduler
start/stop lifecycle, and the source aggregation of `zambian_data.py`.

Python floats are modelled as exact rationals (`ℚ`); `round(x, n)` is
modelled as rounding `x * 10^n` to the nearest integer.  Calls to
`datetime.now()` are modelled by an explicit evaluation context carrying the
current absolute day index together with month-of-day and weekday-of-day
functions, and every `random.uniform` draw is modelled as an explicit
per-day input function, so that all definitions are pure and executable.
-/

namespace FarmMarket

/-- Python `round(x, 2)` on our rational embedding of floats. -/
def round2 (x : ℚ) : ℚ := (round (x * 100) : ℤ) / 100

/-- Python `round(x, 3)` on our rational embedding of floats. -/
def round3 (x : ℚ) : ℚ := (round (x * 1000) : ℤ) / 1000

/-- Commodity configuration dictionary of `ForecastConfig.get_commodity_config`
(`forecast.py`).  The per-commodity "effect" keys (`harvest_effect`,
`rainy_effect`, …) are read by no code path and are omitted. -/
structure CommodityConfig where
  model : String
  seasonality : ℕ
  volatility : ℚ
  default_price : ℚ
deriving DecidableEq, Repr

/-- Embeds `ForecastConfig.get_commodity_config` from `forecast.py`. -/
def get_commodity_config (commodity : String) : CommodityConfig :=
  if commodity = "Maize" then ⟨"ensemble", 7, 8/100, 120 + 50/100⟩
  else if commodity = "Tomatoes" then ⟨"random_forest", 7, 25/100, 85 + 25/100⟩
  else if commodity = "Beans" then ⟨"linear", 30, 10/100, 175 + 30/100⟩
  else if commodity = "Rice" then ⟨"ensemble", 30, 5/100, 200⟩
  else if commodity = "Groundnuts" then ⟨"ensemble", 14, 12/100, 190⟩
  else ⟨"ensemble", 7, 10/100, 100⟩

/-- Embeds `ForecastConfig.get_market_factor` from `forecast.py`. -/
def get_market_factor (market : String) : ℚ :=
  if market = "Lusaka" then 105/100
  else if market = "Kabwe" then 102/100
  else if market = "Ndola" then 103/100
  else if market = "Livingstone" then 1
  else if market = "Copperbelt" then 103/100
  else if market = "Southern" then 1
  else if market = "Eastern" then 98/100
  else if market = "Central" then 96/100
  else if market = "Northern" then 97/100
  else 1

/-- Embeds `ForecastConfig.get_seasonal_factor` from `forecast.py`.  Note that a
`Maize` month outside both listed ranges falls through to the final
`return 1.0`. -/
def get_seasonal_factor (month : ℕ) (commodity : String) : ℚ :=
  if commodity = "Maize" then
    if month = 4 ∨ month = 5 ∨ month = 6 then 92/100
    else if month = 8 ∨ month = 9 ∨ month = 10 then 115/100
    else 1
  else if commodity = "Tomatoes" then
    if month = 10 ∨ month = 11 ∨ month = 12 ∨ month = 1 then 120/100
    else 90/100
  else 1

/-- A forecast point as produced by the strategies of `forecast.py`
(a Python dict).  Keys that only some producers set are `Option`s, `none`
standing for an absent key.  The `..._ctx` fields embed the
`zambian_context` sub-dictionary emitted by the fallback strategy. -/
structure FPoint where
  date : ℕ
  predicted_price : ℚ
  change_percent : ℚ
  trend : String
  model : Option String := none
  confidence : Option String := none
  commodity : Option String := none
  market : Option String := none
  data_points : Option ℕ := none
  seasonal_factor_ctx : Option ℚ := none
  market_factor_ctx : Option ℚ := none
  day_factor_ctx : Option ℚ := none
  market_day_ctx : Option String := none
deriving DecidableEq, Repr

instance : Inhabited FPoint := ⟨{ date := 0, predicted_price := 0, change_percent := 0, trend := "" }⟩

/-- Evaluation context for the forecast functions: the absolute day index of
`datetime.now()`, calendar decodings of absolute day indices, and the
outcomes of the `random.uniform` draws of each strategy (indexed by the
forecast-day loop variable `i`). -/
structure Ctx where
  nowDay : ℕ
  monthOf : ℕ → ℕ
  weekdayOf : ℕ → ℕ
  ensembleVar : ℕ → ℚ
  marketVar : ℕ → ℚ
  fallbackVar : ℕ → ℚ
  linregVar : ℕ → ℚ

/-- Embeds `calculate_recent_trend` from `forecast.py`: percentage change across the
last 7 prices. -/
def calculate_recent_trend (df : List ℚ) : ℚ :=
  if df.length < 7 then 0
  else
    let prices := df.drop (df.length - 7)
    if prices.length < 2 then 0
    else if prices.headD 0 > 0 then (prices.getLastD 0 - prices.headD 0) / prices.headD 0
    else 0

/-- The unrounded predicted price computed by `seasonal_forecast` for
forecast day `i` (before `round(_, 2)`). -/
def seasonalRaw (ctx : Ctx) (df : List ℚ) (current_price : ℚ)
    (commodity market : String) (i : ℕ) : ℚ :=
  let futureDay := ctx.nowDay + i + 1
  let seasonal_factor := get_seasonal_factor (ctx.monthOf futureDay) commodity
  let day_of_week := ctx.weekdayOf futureDay
  let day_factor : ℚ := if day_of_week = 2 ∨ day_of_week = 5 then 102/100 else 1
  let market_factor := get_market_factor market
  let predicted := current_price * seasonal_factor * day_factor * market_factor
  if 7 ≤ df.length then
    let recent_trend := calculate_recent_trend df
    let trend_factor := 1 + (1/1000) * ((i : ℚ) + 1) * recent_trend
    predicted * trend_factor
  else predicted

/-- Embeds `seasonal_forecast` from `forecast.py`. -/
def seasonal_forecast (ctx : Ctx) (df : List ℚ) (current_price : ℚ) (days : ℕ)
    (commodity market : String) : List FPoint :=
  (List.range days).map fun i =>
    let predicted := seasonalRaw ctx df current_price commodity market i
    { date := ctx.nowDay + i + 1
      predicted_price := round2 predicted
      change_percent :=
        if current_price > 0 then round2 ((predicted - current_price) / current_price * 100) else 0
      trend :=
        if predicted > current_price then "up"
        else if predicted < current_price then "down" else "stable" }

/-- The unrounded predicted price computed by `market_aware_forecast` for
forecast day `i`: default price × market factor, then seasonal factor, then
(for a non-empty history) the 70/30 blend with the current price, then the
random variation, then the per-day trend factor — in that source order. -/
def marketAwareRaw (ctx : Ctx) (df : List ℚ) (current_price : ℚ)
    (commodity market : String) (i : ℕ) : ℚ :=
  let config := get_commodity_config commodity
  let base_price := config.default_price
  let market_factor := get_market_factor market
  let futureDay := ctx.nowDay + i + 1
  let predicted0 := base_price * market_factor
  let seasonal_factor := get_seasonal_factor (ctx.monthOf futureDay) commodity
  let predicted1 := predicted0 * seasonal_factor
  let predicted2 := if df ≠ [] then (7/10) * current_price + (3/10) * predicted1 else predicted1
  let variation := ctx.marketVar i
  let predicted3 := predicted2 * (1 + variation)
  let trend_factor := 1 + (1/1000) * ((i : ℚ) + 1)
  predicted3 * trend_factor

/-- Embeds `market_aware_forecast` from `forecast.py`. -/
def market_aware_forecast (ctx : Ctx) (df : List ℚ) (current_price : ℚ) (days : ℕ)
    (commodity market : String) : List FPoint :=
  (List.range days).map fun i =>
    let predicted := marketAwareRaw ctx df current_price commodity market i
    { date := ctx.nowDay + i + 1
      predicted_price := round2 predicted
      change_percent :=
        if current_price > 0 then round2 ((predicted - current_price) / current_price * 100) else 0
      trend :=
        if predicted > current_price then "up"
        else if predicted < current_price then "down" else "stable" }

/-- The unrounded predicted price computed by `fallback_forecast_with_context`
for forecast day `i`. -/
def fallbackRaw (ctx : Ctx) (current_price : ℚ) (commodity market : String) (i : ℕ) : ℚ :=
  let config := get_commodity_config commodity
  let futureDay := ctx.nowDay + i + 1
  let seasonal_factor := get_seasonal_factor (ctx.monthOf futureDay) commodity
  let market_factor := get_market_factor market
  let day_of_week := ctx.weekdayOf futureDay
  let day_factor : ℚ := if day_of_week = 2 ∨ day_of_week = 5 then 102/100 else 1
  let default_price := config.default_price
  let base_price :=
    if current_price > 0 then (6/10) * current_price + (4/10) * default_price else default_price
  let predicted0 := base_price * seasonal_factor * market_factor * day_factor
  let variation := ctx.fallbackVar i
  let predicted1 := predicted0 * (1 + variation)
  let trend_factor := 1 + (5/10000) * ((i : ℚ) + 1)
  predicted1 * trend_factor

/-- Embeds `fallback_forecast_with_context` from `forecast.py`: the sparse-data
heuristic.  It is the only strategy that sets `model`/`confidence` keys on
its own points, plus the `zambian_context` sub-dictionary. -/
def fallback_forecast_with_context (ctx : Ctx) (current_price : ℚ)
    (commodity market : String) (days : ℕ) : List FPoint :=
  (List.range days).map fun i =>
    let futureDay := ctx.nowDay + i + 1
    let seasonal_factor := get_seasonal_factor (ctx.monthOf futureDay) commodity
    let market_factor := get_market_factor market
    let day_of_week := ctx.weekdayOf futureDay
    let day_factor : ℚ := if day_of_week = 2 ∨ day_of_week = 5 then 102/100 else 1
    let predicted := fallbackRaw ctx current_price commodity market i
    { date := futureDay
      predicted_price := round2 predicted
      change_percent :=
        if current_price > 0 then round2 ((predicted - current_price) / current_price * 100) else 0
      trend :=
        if predicted > current_price then "up"
        else if predicted < current_price then "down" else "stable"
      model := some "fallback_with_context"
      confidence := some "low"
      seasonal_factor_ctx := some (round3 seasonal_factor)
      market_factor_ctx := some (round3 market_factor)
      day_factor_ctx := some (round3 day_factor)
      market_day_ctx := some (if day_of_week = 2 ∨ day_of_week = 5 then "yes" else "no") }

/-- The ordinary-least-squares slope of prices against sequence index
`0, 1, …, n-1`, as computed by the fitted `LinearRegression` inside
`linear_trend_forecast`. -/
def olsSlope (prices : List ℚ) : ℚ :=
  let n : ℚ := prices.length
  let xs := (List.range prices.length).map fun i => (i : ℚ)
  let sx := xs.sum
  let sy := prices.sum
  let sxy := ((xs.zip prices).map fun p => p.1 * p.2).sum
  let sxx := (xs.map fun x => x * x).sum
  (n * sxy - sx * sy) / (n * sxx - sx * sx)

/-- The ordinary-least-squares intercept matching `olsSlope`. -/
def olsIntercept (prices : List ℚ) : ℚ :=
  let n : ℚ := prices.length
  let sx := ((List.range prices.length).map fun i => (i : ℚ)).sum
  (prices.sum - olsSlope prices * sx) / n

/-- The unrounded predicted price computed by `linear_trend_forecast` for
forecast day `i`: the OLS extrapolation at `len(prices) + i`, post-multiplied
by the seasonal and market factors. -/
def linearTrendRaw (ctx : Ctx) (df : List ℚ) (commodity market : String) (i : ℕ) : ℚ :=
  let futureDay := ctx.nowDay + i + 1
  let future_x : ℚ := (df.length : ℚ) + (i : ℚ)
  let predicted0 := olsIntercept df + olsSlope df * future_x
  let seasonal_factor := get_seasonal_factor (ctx.monthOf futureDay) commodity
  let market_factor := get_market_factor market
  predicted0 * seasonal_factor * market_factor

/-- Embeds `linear_trend_forecast` from `forecast.py`: `None` for fewer than 3
price points, otherwise one point per forecast day.  The scikit-learn
`LinearRegression` fit of price against index is modelled by its exact
closed-form ordinary-least-squares solution. -/
def linear_trend_forecast (ctx : Ctx) (df : List ℚ) (current_price : ℚ) (days : ℕ)
    (commodity market : String) : Option (List FPoint) :=
  if df.length < 3 then none
  else some ((List.range days).map fun i =>
    let predicted := linearTrendRaw ctx df commodity market i
    { date := ctx.nowDay + i + 1
      predicted_price := round2 predicted
      change_percent :=
        if current_price > 0 then round2 ((predicted - current_price) / current_price * 100) else 0
      trend :=
        if predicted > current_price then "up"
        else if predicted < current_price then "down" else "stable" })

/-- The candidate prediction series aggregated by `ensemble_forecast`:
the linear-trend, seasonal and market-aware series of rounded predicted
prices, each kept only when non-`None` and non-empty (Python truthiness). -/
def ensembleForecastLists (ctx : Ctx) (df : List ℚ) (current_price : ℚ) (days : ℕ)
    (commodity market : String) : List (List ℚ) :=
  (match linear_trend_forecast ctx df current_price days commodity market with
   | some l => if l ≠ [] then [l.map fun p => p.predicted_price] else []
   | none => []) ++
  (let s := seasonal_forecast ctx df current_price days commodity market
   if s ≠ [] then [s.map fun p => p.predicted_price] else []) ++
  (let m := market_aware_forecast ctx df current_price days commodity market
   if m ≠ [] then [m.map fun p => p.predicted_price] else [])

/-- The unrounded final price computed by `ensemble_forecast` for forecast
day `i`: the mean of the available candidates for that day (or the current
price when none), times seasonal factor, market factor, and the bounded
random variation. -/
def ensembleRaw (ctx : Ctx) (df : List ℚ) (current_price : ℚ) (days : ℕ)
    (commodity market : String) (i : ℕ) : ℚ :=
  let forecasts := ensembleForecastLists ctx df current_price days commodity market
  let day_predictions := forecasts.filterMap fun f => f.get? i
  let avg_price :=
    if day_predictions ≠ [] then day_predictions.sum / (day_predictions.length : ℚ)
    else current_price
  let futureDay := ctx.nowDay + i + 1
  let seasonal_factor := get_seasonal_factor (ctx.monthOf futureDay) commodity
  let market_factor := get_market_factor market
  let variation := ctx.ensembleVar i
  avg_price * seasonal_factor * market_factor * (1 + variation)

/-- Embeds `ensemble_forecast` from `forecast.py`. -/
def ensemble_forecast (ctx : Ctx) (df : List ℚ) (current_price : ℚ) (days : ℕ)
    (commodity market : String) : List FPoint :=
  if ensembleForecastLists ctx df current_price days commodity market = [] then
    fallback_forecast_with_context ctx current_price commodity market days
  else
    (List.range days).map fun i =>
      let final_price := ensembleRaw ctx df current_price days commodity market i
      { date := ctx.nowDay + i + 1
        predicted_price := round2 final_price
        change_percent :=
          if current_price > 0 then round2 ((final_price - current_price) / current_price * 100)
          else 0
        trend :=
          if final_price > current_price then "up"
          else if final_price < current_price then "down" else "stable" }

/-- Embeds `random_forest_forecast` from `forecast.py`, which simply delegates to
the ensemble approach. -/
def random_forest_forecast (ctx : Ctx) (df : List ℚ) (current_price : ℚ) (days : ℕ)
    (commodity market : String) : List FPoint :=
  ensemble_forecast ctx df current_price days commodity market

/-- The moving-average trend computed by `linear_regression_forecast`:
`(mean of last 3 − mean of last 5) / mean of last 5`. -/
def linregTrend (df : List ℚ) : ℚ :=
  if 3 ≤ df.length then
    let ma3 := (df.drop (df.length - 3)).sum / 3
    let ma5 := if 5 ≤ df.length then (df.drop (df.length - 5)).sum / 5 else ma3
    if ma5 > 0 then (ma3 - ma5) / ma5 else 0
  else 0

/-- The unrounded predicted price computed by `linear_regression_forecast`
for forecast day `i`. -/
def linregRaw (ctx : Ctx) (df : List ℚ) (current_price : ℚ)
    (commodity market : String) (i : ℕ) : ℚ :=
  let futureDay := ctx.nowDay + i + 1
  let predicted0 := current_price * (1 + linregTrend df * ((i : ℚ) + 1))
  let seasonal_factor := get_seasonal_factor (ctx.monthOf futureDay) commodity
  let market_factor := get_market_factor market
  let predicted1 := predicted0 * seasonal_factor * market_factor
  let variation := ctx.linregVar i
  predicted1 * (1 + variation)

/-- Embeds `linear_regression_forecast` from `forecast.py`. -/
def linear_regression_forecast (ctx : Ctx) (df : List ℚ) (current_price : ℚ) (days : ℕ)
    (commodity market : String) : List FPoint :=
  if df.length < 5 then fallback_forecast_with_context ctx current_price commodity market days
  else
    (List.range days).map fun i =>
      let predicted := linregRaw ctx df current_price commodity market i
      { date := ctx.nowDay + i + 1
        predicted_price := round2 predicted
        change_percent :=
          if current_price > 0 then round2 ((predicted - current_price) / current_price * 100)
          else 0
        trend :=
          if predicted > current_price then "up"
          else if predicted < current_price then "down" else "stable" }

/-- Embeds `enhanced_price_forecast` from `forecast.py`.  A history of fewer than 2
points returns the fallback forecast at an assumed current price of 100
before any metadata is attached; otherwise the strategy selected by the
resolved model type runs and the metadata loop overwrites each point's
`commodity`/`market`/`model`/`confidence`/`data_points` keys.  The
`except`-branch (which reruns the fallback) is unreachable in this total
embedding. -/
def enhanced_price_forecast (ctx : Ctx) (df : List ℚ) (days : ℕ)
    (commodity market model_type : String) : List FPoint :=
  if df.length < 2 then
    fallback_forecast_with_context ctx 100 commodity market days
  else
    let current_price := df.getLastD 0
    let config := get_commodity_config commodity
    let mt := if model_type = "auto" then config.model else model_type
    let forecast_results :=
      if mt = "ensemble" ∧ 10 ≤ df.length then
        ensemble_forecast ctx df current_price days commodity market
      else if mt = "random_forest" ∧ 10 ≤ df.length then
        random_forest_forecast ctx df current_price days commodity market
      else if mt = "linear" ∧ 5 ≤ df.length then
        linear_regression_forecast ctx df current_price days commodity market
      else
        fallback_forecast_with_context ctx current_price commodity market days
    forecast_results.map fun p =>
      { p with
          commodity := some commodity
          market := some market
          model := some mt
          confidence := some (if 20 ≤ df.length then "medium" else "low")
          data_points := some df.length }

/-- A trading recommendation dictionary as returned by
`get_forecast_recommendations` in `forecast.py`. -/
structure Recommendation where
  buy_sell : String
  timing : String
  reason : String
  confidence : String
  action : String
  market_advice : String
deriving DecidableEq, Repr

/-- The `avg_change > 8` recommendation of `get_forecast_recommendations`. -/
def recHoldBuy (market : String) : Recommendation :=
  ⟨"Hold/Buy", "Within 3 days", "Strong upward trend expected", "high",
   "Consider holding or buying for short-term gain", "Check " ++ market ++ " prices daily"⟩

/-- The `avg_change > 3` recommendation of `get_forecast_recommendations`. -/
def recConsiderSellingUp : Recommendation :=
  ⟨"Consider Selling", "In 2-3 days", "Moderate upward trend", "medium",
   "Good selling opportunity expected soon", "Monitor prices closely"⟩

/-- The `avg_change < -8` recommendation of `get_forecast_recommendations`. -/
def recSell : Recommendation :=
  ⟨"Sell", "Immediately", "Strong downward trend", "high",
   "Consider selling to minimize losses", "Check other markets for better prices"⟩

/-- The `avg_change < -3` recommendation of `get_forecast_recommendations`. -/
def recConsiderSellingDown : Recommendation :=
  ⟨"Consider Selling", "Within 1-2 days", "Moderate downward trend", "medium",
   "Prices may continue to fall", "Consider storing if possible"⟩

/-- The stable-prices default recommendation of
`get_forecast_recommendations`, reached when the forecast is empty, not a
list, or its mean change triggers none of the four threshold branches. -/
def recHold (market : String) : Recommendation :=
  ⟨"Hold", "No immediate action", "Prices expected to remain stable", "medium",
   "Continue normal trading operations", "Monitor " ++ market ++ " for any changes"⟩

/-- The recommendation built inside the `except` handler of
`get_forecast_recommendations`, returned only when an exception occurs. -/
def recMonitor : Recommendation :=
  ⟨"Monitor", "Check daily", "Insufficient data for analysis", "low",
   "Check market prices regularly", "Gather more price data for better predictions"⟩

/-- The body of `get_forecast_recommendations` from `forecast.py` after the
forecast has been obtained: the mean of the points' `change_percent` values
is mapped through the threshold chain, and every non-matching case falls
through to the stable-prices `Hold` default.  The exception handler (which
returns `recMonitor`) is unreachable in this total embedding. -/
def get_forecast_recommendations_core (market : String) (forecast : List FPoint) :
    Recommendation :=
  if forecast.length > 0 then
    let changes := forecast.map fun day => day.change_percent
    let avg_change := if changes ≠ [] then changes.sum / (changes.length : ℚ) else 0
    if avg_change > 8 then recHoldBuy market
    else if avg_change > 3 then recConsiderSellingUp
    else if avg_change < -8 then recSell
    else if avg_change < -3 then recConsiderSellingDown
    else recHold market
  else recHold market

/-- The mean `change_percent` of a forecast, as `np.mean` computes it. -/
def meanChange (forecast : List FPoint) : ℚ :=
  (forecast.map fun day => day.change_percent).sum / (forecast.length : ℚ)

/-! ## Scheduler lifecycle (`data_scheduler.py`) -/

/-- The observable state of `DataScheduler` together with the module-global
`schedule` job registry: the `running` flag, the registered job set, and the
background thread handle (`none` before any start; the `Bool` records
whether the thread is still alive). -/
structure SchedulerState where
  running : Bool
  jobs : List (String × String)
  schedule_thread : Option Bool
deriving DecidableEq, Repr

/-- Zero-padded `HH` rendering of an hour, as `f"{hour:02d}"` produces. -/
def hh (hour : ℕ) : String :=
  if hour < 10 then "0" ++ toString hour else toString hour

/-- The fixed job set registered by `start_scheduler` in
`data_scheduler.py`, as (trigger, handler) pairs. -/
def scheduledJobs : List (String × String) :=
  [("every day at 07:00", "update_market_status"),
   ("every day at 07:05", "send_daily_summaries"),
   ("every day at 08:00", "collect_daily_data"),
   ("every day at 02:00", "create_daily_backup"),
   ("every day at 23:00", "generate_daily_report")] ++
  ((List.range 10).map fun h =>
    ("every day at " ++ hh (8 + h) ++ ":30", "collect_hourly_updates")) ++
  [("every sunday at 01:00", "cleanup_old_data"),
   ("every monday at 03:00", "generate_monthly_report")]

/-- Embeds `DataScheduler.start_scheduler`: a no-op when already running, otherwise
it clears and re-registers the job set, sets `running`, and launches the
background loop thread. -/
def start_scheduler (s : SchedulerState) : SchedulerState :=
  if s.running then s
  else { running := true, jobs := scheduledJobs, schedule_thread := some true }

/-- Embeds `DataScheduler.stop_scheduler`: clears `running` and the job registry;
the subsequent `join(timeout=5)` on the (possibly absent) thread handle does
not modify any of these fields. -/
def stop_scheduler (s : SchedulerState) : SchedulerState :=
  { s with running := false, jobs := [] }

/-! ## Price repository upsert (`data_scheduler.py`) -/

/-- An incoming price dictionary as consumed by
`_save_prices_to_database_safe` (with the fields the claim is about; the
optional `volume`/`quality`/`region`/`price_trend` columns are not modelled).
Timestamps are absolute seconds; `dateOf` recovers the calendar day. -/
structure PriceInput where
  market : String
  commodity : String
  price : ℚ
  unit : String
  source : String
  verified : Bool
  recorded_at : ℕ
deriving DecidableEq, Repr

/-- A stored `market_prices` row. -/
structure PriceRow where
  id : ℕ
  market : String
  commodity : String
  price : ℚ
  unit : String
  source : String
  verified : Bool
  recorded_at : ℕ
deriving DecidableEq, Repr

/-- The calendar day of a timestamp, as SQLite's `date(recorded_at)`
extracts it. -/
def dateOf (t : ℕ) : ℕ := t / 86400

/-- The `market_prices` table with its autoincrement counter. -/
structure PricesDb where
  rows : List PriceRow
  nextId : ℕ
deriving DecidableEq, Repr

/-- The existence check of the upsert:
`WHERE market = ? AND commodity = ? AND date(recorded_at) = ?` — the code
binds the third parameter to the *current* date, not to the day of the
incoming observation's `recorded_at`. -/
def rowMatchesKey (m c : String) (day : ℕ) (r : PriceRow) : Bool :=
  r.market == m && r.commodity == c && dateOf r.recorded_at == day

/-- One iteration of the loop in `_save_prices_to_database_safe`
(`data_scheduler.py`): look up an existing row for
(market, commodity, *today*); update its
price/unit/source/verified/recorded_at fields in place if found, else
insert a fresh row. -/
def upsertPrice (today : ℕ) (db : PricesDb) (p : PriceInput) : PricesDb :=
  match db.rows.find? (rowMatchesKey p.market p.commodity today) with
  | some existing =>
      { db with rows := db.rows.map fun r =>
          if r.id = existing.id then
            { r with price := p.price, unit := p.unit, source := p.source,
                     verified := p.verified, recorded_at := p.recorded_at }
          else r }
  | none =>
      { rows := db.rows ++
          [⟨db.nextId, p.market, p.commodity, p.price, p.unit, p.source, p.verified,
            p.recorded_at⟩],
        nextId := db.nextId + 1 }

/-- Embeds `_save_prices_to_database_safe` over a batch of incoming records. -/
def savePricesToDatabaseSafe (today : ℕ) (db : PricesDb) (ps : List PriceInput) : PricesDb :=
  ps.foldl (upsertPrice today) db

/-! ## Source aggregation (`zambian_data.py`) -/

/-- Outcome of evaluating a piece of Python code: a value, or a raised
exception identified by its class name. -/
inductive PyOutcome (α : Type) : Type
  | ok : α → PyOutcome α
  | exn : String → PyOutcome α
deriving DecidableEq, Repr

/-- The names bound at module level in `zambian_data.py` by its import
statements (`import os`, `import random`,
`from datetime import datetime, timedelta`). -/
def zambianDataModuleNames : List String := ["os", "random", "datetime", "timedelta"]

/-- Evaluating the expression `time.time()` against a set of module-level
names: a `NameError` is raised when `time` is not bound. -/
def evalTimeTime (moduleNames : List String) : PyOutcome ℚ :=
  if moduleNames.contains "time" then .ok 0 else .exn "NameError"

/-- One source entry of the loop in `ZambianMarketData.fetch_all_sources`:
the source name together with the outcome its fetch function would produce
if it were called. -/
structure SourceFetch where
  name : String
  fetch : PyOutcome (List PriceInput)

/-- The records one iteration of the per-source loop of
`fetch_all_sources` contributes to `all_prices`.  The loop body first
evaluates `start_time = time.time()`, then calls the fetch function; any
exception from either statement is caught by the per-source
`except Exception` handler, which records an error status and contributes
no records. -/
def fetchSourceRecords (moduleNames : List String) (src : SourceFetch) : List PriceInput :=
  match evalTimeTime moduleNames with
  | .exn _ => []
  | .ok _ =>
      match src.fetch with
      | .exn _ => []
      | .ok prices => prices

/-- Embeds `ZambianMarketData.fetch_all_sources` from `zambian_data.py`:
accumulates each source's contribution into `all_prices` and returns it
(the trailing `update_source_stats` call swallows its own errors and does
not touch `all_prices`). -/
def fetch_all_sources (sources : List SourceFetch) : List PriceInput :=
  sources.foldl (fun acc s => acc ++ fetchSourceRecords zambianDataModuleNames s) []

/-! ## Shared helper lemmas and concrete evaluation contexts -/

/-- Reading index `i` of a list built by mapping over `List.range`. -/
theorem getD_range_map {β : Type} (f : ℕ → β) (days i : ℕ) (hi : i < days) (d : β) :
    ((List.range days).map f).getD i d = f i := by
  rw [List.getD_eq_getElem?_getD, List.getElem?_map, List.getElem?_range hi]
  rfl

/-- Reading index `i` of a mapped list below its length. -/
theorem getD_map_of_lt {α β : Type} (l : List α) (f : α → β) (i : ℕ) (hi : i < l.length)
    (d : β) (d' : α) : (l.map f).getD i d = f (l.getD i d') := by
  rw [List.getD_eq_getElem?_getD, List.getD_eq_getElem?_getD, List.getElem?_map,
    List.getElem?_eq_getElem hi]
  rfl

/-- A list of forecast points has the shape required of an `N`-day forecast
issued on day `nowDay`: exactly `days` points, the `i`-th dated
`nowDay + i + 1`. -/
def hasShape (nowDay days : ℕ) (l : List FPoint) : Prop :=
  l.length = days ∧ ∀ i, i < days → (l.getD i default).date = nowDay + i + 1

theorem range_map_hasShape (nowDay days : ℕ) (f : ℕ → FPoint)
    (hf : ∀ i, (f i).date = nowDay + i + 1) :
    hasShape nowDay days ((List.range days).map f) := by
  refine ⟨by simp, fun i hi => ?_⟩
  rw [getD_range_map f days i hi]
  exact hf i

theorem fallback_hasShape (ctx : Ctx) (current_price : ℚ) (commodity market : String)
    (days : ℕ) :
    hasShape ctx.nowDay days (fallback_forecast_with_context ctx current_price commodity market days) :=
  range_map_hasShape _ _ _ fun _ => rfl

theorem seasonal_hasShape (ctx : Ctx) (df : List ℚ) (current_price : ℚ) (days : ℕ)
    (commodity market : String) :
    hasShape ctx.nowDay days (seasonal_forecast ctx df current_price days commodity market) :=
  range_map_hasShape _ _ _ fun _ => rfl

theorem market_aware_hasShape (ctx : Ctx) (df : List ℚ) (current_price : ℚ) (days : ℕ)
    (commodity market : String) :
    hasShape ctx.nowDay days (market_aware_forecast ctx df current_price days commodity market) :=
  range_map_hasShape _ _ _ fun _ => rfl

theorem ensemble_hasShape (ctx : Ctx) (df : List ℚ) (current_price : ℚ) (days : ℕ)
    (commodity market : String) :
    hasShape ctx.nowDay days (ensemble_forecast ctx df current_price days commodity market) := by
  unfold ensemble_forecast
  split
  · exact fallback_hasShape ctx current_price commodity market days
  · exact range_map_hasShape _ _ _ fun _ => rfl

theorem linreg_hasShape (ctx : Ctx) (df : List ℚ) (current_price : ℚ) (days : ℕ)
    (commodity market : String) :
    hasShape ctx.nowDay days
      (linear_regression_forecast ctx df current_price days commodity market) := by
  unfold linear_regression_forecast
  split
  · exact fallback_hasShape ctx current_price commodity market days
  · exact range_map_hasShape _ _ _ fun _ => rfl

theorem map_hasShape (nowDay days : ℕ) (l : List FPoint) (f : FPoint → FPoint)
    (hdate : ∀ p, (f p).date = p.date) (h : hasShape nowDay days l) :
    hasShape nowDay days (l.map f) := by
  obtain ⟨hlen, hpt⟩ := h
  refine ⟨by simpa using hlen, fun i hi => ?_⟩
  rw [getD_map_of_lt l f i (by omega) _ default, hdate]
  exact hpt i hi

theorem random_forest_hasShape (ctx : Ctx) (df : List ℚ) (current_price : ℚ) (days : ℕ)
    (commodity market : String) :
    hasShape ctx.nowDay days
      (random_forest_forecast ctx df current_price days commodity market) :=
  ensemble_hasShape ctx df current_price days commodity market

theorem enhanced_hasShape (ctx : Ctx) (df : List ℚ) (days : ℕ)
    (commodity market model_type : String) :
    hasShape ctx.nowDay days (enhanced_price_forecast ctx df days commodity market model_type) := by
  unfold enhanced_price_forecast
  split
  · exact fallback_hasShape ctx 100 commodity market days
  · refine map_hasShape _ _ _ _ (fun _ => rfl) ?_
    repeat' split
    all_goals first
      | exact ensemble_hasShape ..
      | exact random_forest_hasShape ..
      | exact linreg_hasShape ..
      | exact fallback_hasShape ..

/-- A concrete evaluation context: day `0`, calendar month February,
every future day a Monday, and every random draw `0`. -/
def ctxFeb : Ctx := ⟨0, fun _ => 2, fun _ => 0, fun _ => 0, fun _ => 0, fun _ => 0, fun _ => 0⟩

/-- A concrete evaluation context identical to `ctxFeb` except every future
day falls in April (the Maize harvest season, seasonal factor `0.92`). -/
def ctxApril : Ctx := ⟨0, fun _ => 4, fun _ => 0, fun _ => 0, fun _ => 0, fun _ => 0, fun _ => 0⟩

/-- A forecast point carrying a prescribed `change_percent`, for feeding the
recommendation advisor. -/
def mkChangePoint (c : ℚ) : FPoint :=
  { date := 0, predicted_price := 0, change_percent := c, trend := "stable" }

/-! ## Claim theorems -/

/-- C10: `zambian_data.py` binds no module-level name `time`, so the
per-source timing statement `start_time = time.time()` inside
`fetch_all_sources` raises a `NameError` before any adapter's fetch function
runs; the per-source handler catches it, and no source ever contributes
records — every invocation returns the empty list, whatever the fetch
functions would have produced. -/
theorem fetch_all_sources_always_empty :
    zambianDataModuleNames.contains "time" = false ∧
    (∀ sources : List SourceFetch, fetch_all_sources sources = []) := by
  refine ⟨rfl, ?_⟩
  have hstep : ∀ src : SourceFetch, fetchSourceRecords zambianDataModuleNames src = [] :=
    fun _ => rfl
  have hfold : ∀ (l : List SourceFetch) (acc : List PriceInput),
      l.foldl (fun acc s => acc ++ fetchSourceRecords zambianDataModuleNames s) acc = acc := by
    intro l
    induction l with
    | nil => intro acc; rfl
    | cons hd tl ih =>
        intro acc
        rw [List.foldl_cons, hstep hd, List.append_nil]
        exact ih acc
  exact fun sources => hfold sources []

/-- C9: the scheduler's `stop_scheduler` is idempotent — on a state that is
already stopped (running flag cleared, job registry empty) it changes
nothing, and in general stopping twice equals stopping once. -/
theorem stop_scheduler_idempotent :
    (∀ s : SchedulerState, s.running = false → s.jobs = [] → stop_scheduler s = s) ∧
    (∀ s : SchedulerState, stop_scheduler (stop_scheduler s) = stop_scheduler s) := by
  constructor
  · intro s h1 h2
    cases s with
    | mk running jobs thread =>
        subst h1
        subst h2
        rfl
  · intro s
    rfl

/-- Witness for C9: `stop_scheduler` fixes the freshly-initialised stopped
state, and stopping a running state twice equals stopping it once. -/
theorem stop_scheduler_idempotent_witness :
    stop_scheduler ⟨false, [], none⟩ = ⟨false, [], none⟩ ∧
    stop_scheduler (stop_scheduler (start_scheduler ⟨false, [], none⟩)) =
      stop_scheduler (start_scheduler ⟨false, [], none⟩) :=
  ⟨stop_scheduler_idempotent.1 ⟨false, [], none⟩ rfl rfl,
   stop_scheduler_idempotent.2 (start_scheduler ⟨false, [], none⟩)⟩

/-- C4: on an empty history, `enhanced_price_forecast([], 7, "Maize",
"Lusaka")` short-circuits to the context fallback before any metadata is
attached, so all 7 points carry `model = "fallback_with_context"` and
`confidence = "low"`. -/
theorem forecast_empty_history_fallback :
    ∀ ctx : Ctx,
      (enhanced_price_forecast ctx [] 7 "Maize" "Lusaka" "auto").length = 7 ∧
      ∀ p ∈ enhanced_price_forecast ctx [] 7 "Maize" "Lusaka" "auto",
        p.model = some "fallback_with_context" ∧ p.confidence = some "low" := by
  intro ctx
  have hempty : enhanced_price_forecast ctx [] 7 "Maize" "Lusaka" "auto" =
      fallback_forecast_with_context ctx 100 "Maize" "Lusaka" 7 := by
    unfold enhanced_price_forecast
    rw [if_pos (by simp)]
  refine ⟨by rw [hempty]; simp [fallback_forecast_with_context], ?_⟩
  intro p hp
  rw [hempty] at hp
  unfold fallback_forecast_with_context at hp
  obtain ⟨i, _, rfl⟩ := List.mem_map.mp hp
  exact ⟨rfl, rfl⟩

/-- Witness for C4: the first of the 7 points at a concrete context carries
the fallback model tag and low confidence. -/
theorem forecast_empty_history_fallback_witness :
    ((enhanced_price_forecast ctxFeb [] 7 "Maize" "Lusaka" "auto").getD 0 default).model =
      some "fallback_with_context" ∧
    ((enhanced_price_forecast ctxFeb [] 7 "Maize" "Lusaka" "auto").getD 0
        default).confidence = some "low" := by
  have hlen := (forecast_empty_history_fallback ctxFeb).1
  have hmem : (enhanced_price_forecast ctxFeb [] 7 "Maize" "Lusaka" "auto").getD 0 default ∈
      enhanced_price_forecast ctxFeb [] 7 "Maize" "Lusaka" "auto" := by
    rw [List.getD_eq_getElem?_getD, List.getElem?_eq_getElem (by omega)]
    simp
  exact (forecast_empty_history_fallback ctxFeb).2 _ hmem

/-- C5's counterexample: on the empty forecast the recommendation code skips
the threshold block entirely and returns the stable-prices `Hold` /
medium-confidence default — not the `Monitor` / insufficient-data /
low-confidence result, which only the exception handler builds. -/
theorem recommend_empty_forecast_counterexample :
    get_forecast_recommendations_core "Lusaka" [] = recHold "Lusaka" ∧
    recHold "Lusaka" ≠ recMonitor ∧
    (recHold "Lusaka").buy_sell = "Hold" ∧ (recHold "Lusaka").confidence = "medium" := by
  refine ⟨rfl, ?_, rfl, rfl⟩
  decide

/-- C5 as amended: for every empty forecast input the recommendation
operation returns the `Hold` / "Prices expected to remain stable" /
medium-confidence default (and, being total, never raises); the `Monitor` /
insufficient-data / low-confidence result is produced only by the exception
handler. -/
theorem recommend_empty_forecast_default :
    ∀ market : String, get_forecast_recommendations_core market [] = recHold market :=
  fun _ => rfl

/-- C3: for every history, horizon `N ≥ 1`, commodity, market and model
selection path, the forecast returns exactly `N` points dated tomorrow
through tomorrow + N − 1, with strictly increasing dates. -/
theorem forecast_horizon_correct (ctx : Ctx) (df : List ℚ) (days : ℕ)
    (commodity market model_type : String) (hdays : 1 ≤ days) :
    (enhanced_price_forecast ctx df days commodity market model_type).length = days ∧
    (∀ i, i < days →
      ((enhanced_price_forecast ctx df days commodity market model_type).getD i default).date =
        ctx.nowDay + i + 1) ∧
    (∀ i j, i < j → j < days →
      ((enhanced_price_forecast ctx df days commodity market model_type).getD i default).date <
        ((enhanced_price_forecast ctx df days commodity market model_type).getD j default).date) := by
  obtain ⟨hlen, hdate⟩ := enhanced_hasShape ctx df days commodity market model_type
  refine ⟨hlen, hdate, fun i j hij hj => ?_⟩
  rw [hdate i (by omega), hdate j hj]
  omega

/-- Witness for C3 at a concrete input: a 12-point Maize history forecast
over 5 days. -/
theorem forecast_horizon_correct_witness :
    (enhanced_price_forecast ctxFeb [1,2,3,4,5,6,7,8,9,10,11,12] 5 "Maize" "Lusaka" "auto").length
      = 5 ∧
    (∀ i, i < 5 →
      ((enhanced_price_forecast ctxFeb [1,2,3,4,5,6,7,8,9,10,11,12] 5 "Maize" "Lusaka"
        "auto").getD i default).date = ctxFeb.nowDay + i + 1) ∧
    (∀ i j, i < j → j < 5 →
      ((enhanced_price_forecast ctxFeb [1,2,3,4,5,6,7,8,9,10,11,12] 5 "Maize" "Lusaka"
        "auto").getD i default).date <
        ((enhanced_price_forecast ctxFeb [1,2,3,4,5,6,7,8,9,10,11,12] 5 "Maize" "Lusaka"
          "auto").getD j default).date) :=
  forecast_horizon_correct ctxFeb [1,2,3,4,5,6,7,8,9,10,11,12] 5 "Maize" "Lusaka" "auto"
    (by decide)

theorem recommendations_core_eq_threshold (market : String) (forecast : List FPoint)
    (h : forecast ≠ []) :
    get_forecast_recommendations_core market forecast =
      (if meanChange forecast > 8 then recHoldBuy market
       else if meanChange forecast > 3 then recConsiderSellingUp
       else if meanChange forecast < -8 then recSell
       else if meanChange forecast < -3 then recConsiderSellingDown
       else recHold market) := by
  have hlen : 0 < forecast.length := List.length_pos.mpr h
  have hch : (forecast.map fun day => day.change_percent) ≠ [] := by
    simpa [List.map_eq_nil_iff] using h
  unfold get_forecast_recommendations_core
  rw [if_pos hlen]
  simp only [meanChange, List.length_map, ne_eq, hch, not_false_eq_true, if_true]

/-- C2: the recommendation is the arithmetic mean of the forecast's
`change_percent` values mapped through the threshold table — mean above 8
gives the Hold/Buy high-confidence action; mean in (3, 8] the
Consider-Selling medium action; mean below −8 the Sell high action; mean in
[−8, −3) the Consider-Selling medium action; any other mean the Hold medium
default — and in particular single-point forecasts with means +10, +5, 0,
−5, −10 give exactly those five actions. -/
theorem recommendations_threshold_table (market : String) (forecast : List FPoint)
    (h : forecast ≠ []) :
    (8 < meanChange forecast →
      get_forecast_recommendations_core market forecast = recHoldBuy market) ∧
    (3 < meanChange forecast → meanChange forecast ≤ 8 →
      get_forecast_recommendations_core market forecast = recConsiderSellingUp) ∧
    (meanChange forecast < -8 →
      get_forecast_recommendations_core market forecast = recSell) ∧
    (-8 ≤ meanChange forecast → meanChange forecast < -3 →
      get_forecast_recommendations_core market forecast = recConsiderSellingDown) ∧
    (-3 ≤ meanChange forecast → meanChange forecast ≤ 3 →
      get_forecast_recommendations_core market forecast = recHold market) ∧
    get_forecast_recommendations_core "Lusaka" [mkChangePoint 10] = recHoldBuy "Lusaka" ∧
    get_forecast_recommendations_core "Lusaka" [mkChangePoint 5] = recConsiderSellingUp ∧
    get_forecast_recommendations_core "Lusaka" [mkChangePoint 0] = recHold "Lusaka" ∧
    get_forecast_recommendations_core "Lusaka" [mkChangePoint (-5)] = recConsiderSellingDown ∧
    get_forecast_recommendations_core "Lusaka" [mkChangePoint (-10)] = recSell := by
  rw [recommendations_core_eq_threshold market forecast h]
  refine ⟨?_, ?_, ?_, ?_, ?_, ?_, ?_, ?_, ?_, ?_⟩
  · intro h1
    rw [if_pos h1]
  · intro h1 h2
    rw [if_neg (by linarith), if_pos h1]
  · intro h1
    rw [if_neg (by linarith), if_neg (by linarith), if_pos h1]
  · intro h1 h2
    rw [if_neg (by linarith), if_neg (by linarith), if_neg (by linarith), if_pos h2]
  · intro h1 h2
    rw [if_neg (by linarith), if_neg (by linarith), if_neg (by linarith),
      if_neg (by linarith)]
  · have hm : meanChange [mkChangePoint 10] = 10 := by norm_num [meanChange, mkChangePoint]
    rw [recommendations_core_eq_threshold _ _ (List.cons_ne_nil _ _), hm]
    norm_num
  · have hm : meanChange [mkChangePoint 5] = 5 := by norm_num [meanChange, mkChangePoint]
    rw [recommendations_core_eq_threshold _ _ (List.cons_ne_nil _ _), hm]
    norm_num
  · have hm : meanChange [mkChangePoint 0] = 0 := by norm_num [meanChange, mkChangePoint]
    rw [recommendations_core_eq_threshold _ _ (List.cons_ne_nil _ _), hm]
    norm_num
  · have hm : meanChange [mkChangePoint (-5)] = -5 := by norm_num [meanChange, mkChangePoint]
    rw [recommendations_core_eq_threshold _ _ (List.cons_ne_nil _ _), hm]
    norm_num
  · have hm : meanChange [mkChangePoint (-10)] = -10 := by norm_num [meanChange, mkChangePoint]
    rw [recommendations_core_eq_threshold _ _ (List.cons_ne_nil _ _), hm]
    norm_num

/-- Witness for C2: a concrete forecast whose mean change is +10 gets the
Hold/Buy high-confidence recommendation. -/
theorem recommendations_threshold_table_witness :
    get_forecast_recommendations_core "Ndola" [mkChangePoint 9, mkChangePoint 11] =
      recHoldBuy "Ndola" :=
  (recommendations_threshold_table "Ndola" [mkChangePoint 9, mkChangePoint 11]
    (List.cons_ne_nil _ _)).1 (by norm_num [meanChange, mkChangePoint])

/-- C1's counterexample: two observations for the same market, commodity and
recordedAt calendar day (day 0), upserted on a *later* day (the existence
check compares `date(recorded_at)` against the current date, day 1 here),
are both inserted — two rows remain for the (market, commodity, day) key,
not one. -/
theorem upsert_same_day_key_counterexample :
    ((upsertPrice 1
        (upsertPrice 1 ⟨[], 0⟩
          ⟨"Lusaka Central Market", "Maize", 100, "ZMW/kg", "ZNFU", true, 0⟩)
        ⟨"Lusaka Central Market", "Maize", 110, "ZMW/kg", "MACO", true, 3600⟩).rows.filter
      (rowMatchesKey "Lusaka Central Market" "Maize" 0)).length = 2 := by
  decide

/-- C1 as amended: the per-day upsert collapses two same-key writes to one
row carrying the second observation's fields *provided* the shared
recordedAt calendar day is the current day at the time of the writes (the
day the code's existence check keys on), starting from a table holding no
row for that key and with well-formed row ids. -/
theorem upsert_same_day_key (db : PricesDb) (o1 o2 : PriceInput) (today : ℕ)
    (hm : o2.market = o1.market) (hc : o2.commodity = o1.commodity)
    (h1 : dateOf o1.recorded_at = today) (h2 : dateOf o2.recorded_at = today)
    (hids : ∀ r ∈ db.rows, r.id < db.nextId)
    (hnone : ∀ r ∈ db.rows, rowMatchesKey o1.market o1.commodity today r = false) :
    (upsertPrice today (upsertPrice today db o1) o2).rows.filter
        (rowMatchesKey o1.market o1.commodity today) =
      [⟨db.nextId, o1.market, o1.commodity, o2.price, o2.unit, o2.source, o2.verified,
        o2.recorded_at⟩] := by
  set new1 : PriceRow :=
    ⟨db.nextId, o1.market, o1.commodity, o1.price, o1.unit, o1.source, o1.verified,
      o1.recorded_at⟩ with hnew1
  have hfind1 : db.rows.find? (rowMatchesKey o1.market o1.commodity today) = none :=
    List.find?_eq_none.mpr fun x hx => by simp [hnone x hx]
  have hstep1 : upsertPrice today db o1 =
      { rows := db.rows ++ [new1], nextId := db.nextId + 1 } := by
    unfold upsertPrice
    rw [hfind1]
  have hpnew : rowMatchesKey o1.market o1.commodity today new1 = true := by
    simp [rowMatchesKey, hnew1, h1]
  have hfind2 : (db.rows ++ [new1]).find? (rowMatchesKey o2.market o2.commodity today) =
      some new1 := by
    rw [hm, hc, List.find?_append, hfind1, List.find?_cons_of_pos _ hpnew]
    rfl
  have hstep2 : upsertPrice today (upsertPrice today db o1) o2 =
      { rows := db.rows ++
          [⟨db.nextId, o1.market, o1.commodity, o2.price, o2.unit, o2.source, o2.verified,
            o2.recorded_at⟩],
        nextId := db.nextId + 1 } := by
    rw [hstep1]
    unfold upsertPrice
    rw [hfind2]
    simp only [List.map_append, List.map_cons, List.map_nil]
    have hmap : db.rows.map (fun r =>
        if r.id = new1.id then
          { r with price := o2.price, unit := o2.unit, source := o2.source,
                   verified := o2.verified, recorded_at := o2.recorded_at }
        else r) = db.rows := by
      rw [List.map_congr_left (g := id) fun r hr => ?_, List.map_id]
      have : r.id ≠ new1.id := Nat.ne_of_lt (hids r hr)
      simp [this]
    rw [hmap]
    simp [hnew1]
  rw [hstep2]
  have hfinal : rowMatchesKey o1.market o1.commodity today
      ⟨db.nextId, o1.market, o1.commodity, o2.price, o2.unit, o2.source, o2.verified,
        o2.recorded_at⟩ = true := by
    simp [rowMatchesKey, h2]
  have hnil : db.rows.filter (rowMatchesKey o1.market o1.commodity today) = [] :=
    List.filter_eq_nil_iff.mpr fun r hr => by simp [hnone r hr]
  rw [List.filter_append, hnil, List.filter_cons_of_pos hfinal]
  rfl

/-- Witness for C1 (amended): two concrete same-day observations upserted on
their own recording day leave exactly the second one's row. -/
theorem upsert_same_day_key_witness :
    (upsertPrice 0 (upsertPrice 0 ⟨[], 0⟩
        ⟨"Soweto Market", "Beans", 100, "ZMW/kg", "ZNFU", true, 0⟩)
      ⟨"Soweto Market", "Beans", 110, "ZMW/bag", "MACO", false, 3600⟩).rows.filter
        (rowMatchesKey "Soweto Market" "Beans" 0) =
      [⟨0, "Soweto Market", "Beans", 110, "ZMW/bag", "MACO", false, 3600⟩] :=
  upsert_same_day_key ⟨[], 0⟩
    ⟨"Soweto Market", "Beans", 100, "ZMW/kg", "ZNFU", true, 0⟩
    ⟨"Soweto Market", "Beans", 110, "ZMW/bag", "MACO", false, 3600⟩ 0
    rfl rfl rfl rfl (by simp) (by simp)

theorem ensembleForecastLists_ne_nil (ctx : Ctx) (df : List ℚ) (current_price : ℚ)
    (days : ℕ) (commodity market : String) (hdays : 0 < days) :
    ensembleForecastLists ctx df current_price days commodity market ≠ [] := by
  have hs : seasonal_forecast ctx df current_price days commodity market ≠ [] := by
    have hlen := (seasonal_hasShape ctx df current_price days commodity market).1
    intro hcon
    rw [hcon] at hlen
    simp only [List.length_nil] at hlen
    omega
  intro hcon
  simp only [ensembleForecastLists, List.append_eq_nil] at hcon
  obtain ⟨⟨_, h2⟩, _⟩ := hcon
  rw [if_pos hs] at h2
  exact List.cons_ne_nil _ _ h2

/-- C6's counterexample: the reported `change_percent` of a forecast point
is a 2-decimal rounding of the percent change of the *unrounded* price, so
it need not equal `(predictedPrice − anchorPrice) / anchorPrice × 100`
computed from the point's own fields: here the point reports a change of
0.03 % while its (rounded) predicted price equals the anchor exactly. -/
theorem change_percent_rounding_counterexample :
    ((seasonal_forecast ctxFeb [3,3,3,3,3,3,4] 4 1 "Beans" "Foo").getD 0 default).change_percent ≠
      (((seasonal_forecast ctxFeb [3,3,3,3,3,3,4] 4 1 "Beans" "Foo").getD 0
          default).predicted_price - 4) / 4 * 100 := by
  unfold seasonal_forecast
  rw [getD_range_map _ _ _ (by norm_num)]
  show (if (4:ℚ) > 0 then
      round2 ((seasonalRaw ctxFeb [3,3,3,3,3,3,4] 4 "Beans" "Foo" 0 - 4) / 4 * 100) else 0) ≠
    (round2 (seasonalRaw ctxFeb [3,3,3,3,3,3,4] 4 "Beans" "Foo" 0) - 4) / 4 * 100
  have htr : calculate_recent_trend [3,3,3,3,3,3,4] = 1/3 := by
    unfold calculate_recent_trend
    norm_num
  have hraw : seasonalRaw ctxFeb [3,3,3,3,3,3,4] 4 "Beans" "Foo" 0 = 3001/750 := by
    unfold seasonalRaw
    rw [htr]
    norm_num [show ∀ m, get_seasonal_factor m "Beans" = 1 from fun _ => rfl,
      show get_market_factor "Foo" = 1 from rfl,
      show ctxFeb.weekdayOf (ctxFeb.nowDay + 0 + 1) = 0 from rfl]
  rw [hraw, if_pos (by norm_num : (4:ℚ) > 0)]
  norm_num [round2, round_eq]

/-- C6 as amended: for every strategy, every point's `change_percent` is the
2-decimal rounding of (unrounded predicted price − anchor) / anchor × 100,
where the anchor is the current price handed to the strategy; when the
anchor is not positive (in particular zero) no division happens and the
reported change is 0. -/
theorem change_percent_formula (ctx : Ctx) (df : List ℚ) (current_price : ℚ) (days : ℕ)
    (commodity market : String) (i : ℕ) (hi : i < days) :
    (((seasonal_forecast ctx df current_price days commodity market).getD i
        default).change_percent =
      if current_price > 0 then
        round2 ((seasonalRaw ctx df current_price commodity market i - current_price)
          / current_price * 100)
      else 0) ∧
    (((market_aware_forecast ctx df current_price days commodity market).getD i
        default).change_percent =
      if current_price > 0 then
        round2 ((marketAwareRaw ctx df current_price commodity market i - current_price)
          / current_price * 100)
      else 0) ∧
    (((fallback_forecast_with_context ctx current_price commodity market days).getD i
        default).change_percent =
      if current_price > 0 then
        round2 ((fallbackRaw ctx current_price commodity market i - current_price)
          / current_price * 100)
      else 0) ∧
    (5 ≤ df.length →
      ((linear_regression_forecast ctx df current_price days commodity market).getD i
          default).change_percent =
        if current_price > 0 then
          round2 ((linregRaw ctx df current_price commodity market i - current_price)
            / current_price * 100)
        else 0) ∧
    (((ensemble_forecast ctx df current_price days commodity market).getD i
        default).change_percent =
      if current_price > 0 then
        round2 ((ensembleRaw ctx df current_price days commodity market i - current_price)
          / current_price * 100)
      else 0) := by
  refine ⟨?_, ?_, ?_, ?_, ?_⟩
  · unfold seasonal_forecast
    rw [getD_range_map _ _ _ hi]
  · unfold market_aware_forecast
    rw [getD_range_map _ _ _ hi]
  · unfold fallback_forecast_with_context
    rw [getD_range_map _ _ _ hi]
  · intro h5
    unfold linear_regression_forecast
    rw [if_neg (by omega), getD_range_map _ _ _ hi]
  · unfold ensemble_forecast
    rw [if_neg (ensembleForecastLists_ne_nil ctx df current_price days commodity market
      (by omega)), getD_range_map _ _ _ hi]

/-- Witness for C6 (amended) at a concrete input. -/
theorem change_percent_formula_witness :
    ((seasonal_forecast ctxFeb [1,2,3,4,5] 5 1 "Rice" "Ndola").getD 0
        default).change_percent =
      if (5:ℚ) > 0 then
        round2 ((seasonalRaw ctxFeb [1,2,3,4,5] 5 "Rice" "Ndola" 0 - 5) / 5 * 100)
      else 0 :=
  (change_percent_formula ctxFeb [1,2,3,4,5] 5 1 "Rice" "Ndola" 0 (by norm_num)).1

/-- C7's counterexample: trend is computed from the sign of the unrounded
predicted price against the anchor, not from `change_percent`; with a zero
anchor the reported change is forced to 0 while the trend is "up", so
"stable iff changePercent = 0" fails. -/
theorem trend_zero_anchor_counterexample :
    ((fallback_forecast_with_context ctxFeb 0 "Maize" "Lusaka" 1).getD 0 default).trend = "up" ∧
    ((fallback_forecast_with_context ctxFeb 0 "Maize" "Lusaka" 1).getD 0
        default).change_percent = 0 := by
  unfold fallback_forecast_with_context
  rw [getD_range_map _ _ _ (by norm_num)]
  have hraw : fallbackRaw ctxFeb 0 "Maize" "Lusaka" 0 > 0 := by
    norm_num [fallbackRaw,
      show get_seasonal_factor (ctxFeb.monthOf (ctxFeb.nowDay + 0 + 1)) "Maize" = 1
        from rfl,
      show get_market_factor "Lusaka" = 105/100 from rfl,
      show ctxFeb.weekdayOf (ctxFeb.nowDay + 0 + 1) = 0 from rfl,
      show (get_commodity_config "Maize").default_price = 120 + 50/100 from rfl,
      show ctxFeb.fallbackVar 0 = 0 from rfl]
  constructor
  · show (if fallbackRaw ctxFeb 0 "Maize" "Lusaka" 0 > 0 then "up"
      else if fallbackRaw ctxFeb 0 "Maize" "Lusaka" 0 < 0 then "down" else "stable") = "up"
    rw [if_pos hraw]
  · show (if (0:ℚ) > 0 then
      round2 ((fallbackRaw ctxFeb 0 "Maize" "Lusaka" 0 - 0) / 0 * 100) else 0) = 0
    rw [if_neg (lt_irrefl (0:ℚ))]

/-- The trend label the strategies attach is "stable" exactly when the
unrounded percent change against a positive anchor is zero. -/
theorem trendString_stable_iff (raw current : ℚ) (hc : 0 < current) :
    ((if raw > current then "up" else if raw < current then "down" else "stable") = "stable")
      ↔ (raw - current) / current * 100 = 0 := by
  constructor
  · intro h
    by_cases h1 : raw > current
    · rw [if_pos h1] at h
      exact absurd h (by decide)
    · by_cases h2 : raw < current
      · rw [if_neg h1, if_pos h2] at h
        exact absurd h (by decide)
      · have heq : raw = current := le_antisymm (not_lt.mp h1) (not_lt.mp h2)
        rw [heq]
        simp
  · intro h
    have hsub : raw - current = 0 := by
      rcases mul_eq_zero.mp h with h' | h'
      · rcases div_eq_zero_iff.mp h' with h'' | h''
        · exact h''
        · exact absurd h'' hc.ne'
      · exact absurd h' (by norm_num)
    have heq : raw = current := by linarith
    rw [if_neg (by rw [heq]; exact lt_irrefl current),
      if_neg (by rw [heq]; exact lt_irrefl current)]

/-- C7 as amended: every strategy labels a point by the sign of its
*unrounded* predicted price against the anchor ("up" above, "down" below,
"stable" at equality); only for a positive anchor does "stable" coincide
with a zero (unrounded) percent change — with a non-positive anchor the
reported `change_percent` is 0 regardless of the label. -/
theorem trend_by_sign_of_raw (ctx : Ctx) (df : List ℚ) (current_price : ℚ) (days : ℕ)
    (commodity market : String) (i : ℕ) (hi : i < days) :
    (((seasonal_forecast ctx df current_price days commodity market).getD i default).trend =
      if seasonalRaw ctx df current_price commodity market i > current_price then "up"
      else if seasonalRaw ctx df current_price commodity market i < current_price then "down"
      else "stable") ∧
    (((market_aware_forecast ctx df current_price days commodity market).getD i
        default).trend =
      if marketAwareRaw ctx df current_price commodity market i > current_price then "up"
      else if marketAwareRaw ctx df current_price commodity market i < current_price then
        "down"
      else "stable") ∧
    (((fallback_forecast_with_context ctx current_price commodity market days).getD i
        default).trend =
      if fallbackRaw ctx current_price commodity market i > current_price then "up"
      else if fallbackRaw ctx current_price commodity market i < current_price then "down"
      else "stable") ∧
    (5 ≤ df.length →
      ((linear_regression_forecast ctx df current_price days commodity market).getD i
          default).trend =
        if linregRaw ctx df current_price commodity market i > current_price then "up"
        else if linregRaw ctx df current_price commodity market i < current_price then "down"
        else "stable") ∧
    (((ensemble_forecast ctx df current_price days commodity market).getD i default).trend =
      if ensembleRaw ctx df current_price days commodity market i > current_price then "up"
      else if ensembleRaw ctx df current_price days commodity market i < current_price then
        "down"
      else "stable") ∧
    (0 < current_price →
      ((((seasonal_forecast ctx df current_price days commodity market).getD i
          default).trend = "stable") ↔
        (seasonalRaw ctx df current_price commodity market i - current_price)
          / current_price * 100 = 0)) ∧
    (0 < current_price →
      ((((ensemble_forecast ctx df current_price days commodity market).getD i
          default).trend = "stable") ↔
        (ensembleRaw ctx df current_price days commodity market i - current_price)
          / current_price * 100 = 0)) := by
  have hseason : ((seasonal_forecast ctx df current_price days commodity market).getD i
      default).trend =
      if seasonalRaw ctx df current_price commodity market i > current_price then "up"
      else if seasonalRaw ctx df current_price commodity market i < current_price then "down"
      else "stable" := by
    unfold seasonal_forecast
    rw [getD_range_map _ _ _ hi]
  have hens : ((ensemble_forecast ctx df current_price days commodity market).getD i
      default).trend =
      if ensembleRaw ctx df current_price days commodity market i > current_price then "up"
      else if ensembleRaw ctx df current_price days commodity market i < current_price then
        "down"
      else "stable" := by
    unfold ensemble_forecast
    rw [if_neg (ensembleForecastLists_ne_nil ctx df current_price days commodity market
      (by omega)), getD_range_map _ _ _ hi]
  refine ⟨hseason, ?_, ?_, ?_, hens, ?_, ?_⟩
  · unfold market_aware_forecast
    rw [getD_range_map _ _ _ hi]
  · unfold fallback_forecast_with_context
    rw [getD_range_map _ _ _ hi]
  · intro h5
    unfold linear_regression_forecast
    rw [if_neg (by omega), getD_range_map _ _ _ hi]
  · intro hc
    rw [hseason]
    exact trendString_stable_iff _ _ hc
  · intro hc
    rw [hens]
    exact trendString_stable_iff _ _ hc

/-- Witness for C7 (amended) at a concrete input. -/
theorem trend_by_sign_of_raw_witness :
    ((seasonal_forecast ctxFeb [2,4,6] 6 1 "Rice" "Kabwe").getD 0 default).trend =
      if seasonalRaw ctxFeb [2,4,6] 6 "Rice" "Kabwe" 0 > 6 then "up"
      else if seasonalRaw ctxFeb [2,4,6] 6 "Rice" "Kabwe" 0 < 6 then "down"
      else "stable" :=
  (trend_by_sign_of_raw ctxFeb [2,4,6] 6 1 "Rice" "Kabwe" 0 (by norm_num)).1

/-- Modelled from the spec's words for the market-aware candidate (§4.6):
"blend of latest observed price (weight 0.7) and the commodity's catalog
`typicalPrice` adjusted by market factor (weight 0.3), **then**
seasonal-adjusted" — i.e. the blend is formed first and the seasonal factor
multiplies the blended value. -/
def marketAwareSpecCandidate (latest : ℚ) (commodity market : String) (month : ℕ) : ℚ :=
  ((7/10) * latest +
    (3/10) * ((get_commodity_config commodity).default_price * get_market_factor market)) *
    get_seasonal_factor month commodity

/-- C8's counterexample: in April (Maize seasonal factor 0.92), with a
100-price history at Lusaka and zero random draw, the code's day-1
market-aware price is 105.03 while blending first and then
seasonal-adjusting (as the spec words it) would give 99.42 — the code
applies the seasonal factor to the typical-price component *before* the
blend, so the blend is not seasonal-adjusted as a whole. -/
theorem market_aware_spec_blend_counterexample :
    ((market_aware_forecast ctxApril [100] 100 1 "Maize" "Lusaka").getD 0
        default).predicted_price ≠
      round2 (marketAwareSpecCandidate 100 "Maize" "Lusaka"
          (ctxApril.monthOf (ctxApril.nowDay + 0 + 1)) *
        (1 + ctxApril.marketVar 0) * (1 + (1/1000) * ((0:ℚ) + 1))) := by
  unfold market_aware_forecast
  rw [getD_range_map _ _ _ (by norm_num)]
  show round2 (marketAwareRaw ctxApril [100] 100 "Maize" "Lusaka" 0) ≠ _
  have hcode : marketAwareRaw ctxApril [100] 100 "Maize" "Lusaka" 0 = 1050258209/10000000 := by
    norm_num [marketAwareRaw,
      show (get_commodity_config "Maize").default_price = 120 + 50/100 from rfl,
      show get_market_factor "Lusaka" = 105/100 from rfl,
      show get_seasonal_factor (ctxApril.monthOf (ctxApril.nowDay + 0 + 1)) "Maize" = 92/100
        from rfl,
      show ctxApril.marketVar 0 = 0 from rfl]
  have hspec : marketAwareSpecCandidate 100 "Maize" "Lusaka"
      (ctxApril.monthOf (ctxApril.nowDay + 0 + 1)) *
      (1 + ctxApril.marketVar 0) * (1 + (1/1000) * ((0:ℚ) + 1)) = 993209/10000 * (1001/1000) := by
    norm_num [marketAwareSpecCandidate,
      show (get_commodity_config "Maize").default_price = 120 + 50/100 from rfl,
      show get_market_factor "Lusaka" = 105/100 from rfl,
      show get_seasonal_factor (ctxApril.monthOf (ctxApril.nowDay + 0 + 1)) "Maize" = 92/100
        from rfl,
      show ctxApril.marketVar 0 = 0 from rfl]
  rw [hcode, hspec]
  norm_num [round2, round_eq]

/-- C8 as amended: the market-aware candidate seasonal-adjusts the
typical-price × market-factor component first and only then blends it (for a
non-empty history) with the latest price at weights 0.7/0.3; the seasonal
factor never multiplies the latest-price term. -/
theorem market_aware_blend_after_seasonal (ctx : Ctx) (df : List ℚ) (current_price : ℚ)
    (days : ℕ) (commodity market : String) (hdf : df ≠ []) (i : ℕ) (hi : i < days) :
    ((market_aware_forecast ctx df current_price days commodity market).getD i
        default).predicted_price =
      round2 (((7/10) * current_price +
          (3/10) * ((get_commodity_config commodity).default_price * get_market_factor market *
            get_seasonal_factor (ctx.monthOf (ctx.nowDay + i + 1)) commodity)) *
        (1 + ctx.marketVar i) * (1 + (1/1000) * ((i:ℚ) + 1))) := by
  unfold market_aware_forecast
  rw [getD_range_map _ _ _ hi]
  show round2 (marketAwareRaw ctx df current_price commodity market i) = _
  simp only [marketAwareRaw]
  rw [if_pos hdf]

/-- Witness for C8 (amended) at a concrete input. -/
theorem market_aware_blend_after_seasonal_witness :
    ((market_aware_forecast ctxApril [80, 90] 90 2 "Rice" "Kabwe").getD 1
        default).predicted_price =
      round2 (((7/10) * 90 +
          (3/10) * ((get_commodity_config "Rice").default_price * get_market_factor "Kabwe" *
            get_seasonal_factor (ctxApril.monthOf (ctxApril.nowDay + 1 + 1)) "Rice")) *
        (1 + ctxApril.marketVar 1) * (1 + (1/1000) * ((1:ℚ) + 1))) :=
  market_aware_blend_after_seasonal ctxApril [80, 90] 90 2 "Rice" "Kabwe"
    (List.cons_ne_nil _ _) 1 (by norm_num)

end FarmMarket

